/-
  Verification of RELogger (Royal Entertainment Logging System).

  The repository ships two variants of the same small leveled logger:
    * src/c/RELogger/relogger.c      (C API: RELogger_Init, RELogger_Shutdown,
                                      RELogger_SetLevel, RELogger_GetLevel, RELogger_Log)
    * src/cpp/RELogger/relogger.cpp  (C++ API: RELogger::Init, RELogger::Shutdown,
                                      RELogger::SetLevel, RELogger::GetLevel, RELogger::Log)

  This file gives a shallow embedding of both variants and proves/refutes the
  frozen claims about them.

  Modelling conventions:
    * `LogLevel` values are the underlying C `int` values of the enum,
      modelled as `Nat` (Trace = 0 .. Fatal = 5); out-of-range values model
      "unrecognized" severities reaching the switch defaults.
    * Wall-clock time is an explicit input (`Time`), and `strftime`/`put_time`
      with format "%H:%M:%S" is modelled by `Time.hhmmss`.
    * Each operation is a function from the logger state (and its inputs,
      including the result of the `fopen`/`ofstream::open` environment call)
      to the new state paired with a trace of observable events: mutex
      acquire/release, console writes (with the target stream), file writes,
      file flush/close, and threshold reads/writes.
    * The `Log` bodies are embedded as compiled in the debug build
      (`DEBUG` defined for the C variant, `NDEBUG` undefined for the C++
      variant); the C variant is embedded on its POSIX (non-`_MSC_VER`)
      branch.  The C warning text takes the `strerror(errno)` string as the
      explicit input `errMsg`.
-/
import Mathlib

/-- The two console streams a log line can be routed to. -/
inductive ConsoleStream
  | stdout
  | stderr
deriving DecidableEq, Repr

/-- Observable events an operation of either variant can perform. -/
inductive Ev
  | lock
  | unlock
  | writeOut (s : ConsoleStream) (line : String)
  | writeFile (chunk : String)
  | flushFile
  | closeFile
  | readLevel
  | writeLevel (lvl : Nat)
deriving DecidableEq, Repr

/-- An open file sink: `disk` is the flushed (on-disk) content, `pending`
the buffered content not yet flushed. -/
structure FileSink where
  disk : String
  pending : String
deriving DecidableEq, Repr

/-- `fprintf(logFile, ...)` / `logFile << ...`: append to the stdio buffer. -/
def FileSink.write (f : FileSink) (chunk : String) : FileSink :=
  { f with pending := f.pending ++ chunk }

/-- `fflush(logFile)` / `std::endl`'s flush: move buffered content to disk. -/
def FileSink.flush (f : FileSink) : FileSink :=
  { disk := f.disk ++ f.pending, pending := "" }

/-- A wall-clock time of day, the input captured by `time`/`system_clock::now`. -/
structure Time where
  hh : Nat
  mm : Nat
  ss : Nat
deriving DecidableEq, Repr

/-- Zero-padded two-digit rendering of a field, as `%H`, `%M`, `%S` produce. -/
def pad2 (n : Nat) : String :=
  if n < 10 then "0" ++ toString n else toString n

/-- `strftime(timeStr, .., "%H:%M:%S", &tm)` / `put_time(&tm, "%H:%M:%S")`. -/
def Time.hhmmss (t : Time) : String :=
  pad2 t.hh ++ ":" ++ pad2 t.mm ++ ":" ++ pad2 t.ss

/-- `#define RESET_COLOR "\033[0m"` (relogger.c line 78). -/
def RESET_COLOR : String := "\x1b[0m"

/-- `LogLevel_Trace` = 0 (first enumerator of the C `LogLevel` enum). -/
def LogLevel_Trace : Nat := 0
/-- `LogLevel_Debug` = 1. -/
def LogLevel_Debug : Nat := 1
/-- `LogLevel_Info` = 2. -/
def LogLevel_Info : Nat := 2
/-- `LogLevel_Warn` = 3. -/
def LogLevel_Warn : Nat := 3
/-- `LogLevel_Error` = 4. -/
def LogLevel_Error : Nat := 4
/-- `LogLevel_Fatal` = 5. -/
def LogLevel_Fatal : Nat := 5

/-- `LevelToString` (relogger.c lines 94-106): severity to display name;
the switch has no default, so out-of-range values fall through to "UNKNOWN". -/
def LevelToString (level : Nat) : String :=
  if level = LogLevel_Trace then "TRACE"
  else if level = LogLevel_Debug then "DEBUG"
  else if level = LogLevel_Info then "INFO"
  else if level = LogLevel_Warn then "WARN"
  else if level = LogLevel_Error then "ERROR"
  else if level = LogLevel_Fatal then "FATAL"
  else "UNKNOWN"

/-- `LevelToColor` (relogger.c lines 118-130): severity to ANSI color escape;
out-of-range values fall through to the reset code. -/
def LevelToColor (level : Nat) : String :=
  if level = LogLevel_Trace then "\x1b[37m"
  else if level = LogLevel_Debug then "\x1b[36m"
  else if level = LogLevel_Info then "\x1b[32m"
  else if level = LogLevel_Warn then "\x1b[33m"
  else if level = LogLevel_Error then "\x1b[31m"
  else if level = LogLevel_Fatal then "\x1b[41m"
  else "\x1b[0m"

/-- The C variant's global state (relogger.c lines 80-82): `logFile`,
`currentLevel`, `mutexInitialized`.  The mutex itself carries no data. -/
structure CState where
  logFile : Option FileSink
  currentLevel : Nat
  mutexInitialized : Bool
deriving DecidableEq, Repr

/-- `RELogger_Init` (relogger.c lines 143-168), POSIX branch.  `logFilePath`
may be NULL (`none`).  `openOk` is the environment's answer to
`fopen(logFilePath, "w")` (which truncates on success); `errMsg` models
`strerror(errno)` used in the warning on failure.  The mutex macro is a
static initializer on POSIX; `mutexInitialized = 1` is set unconditionally. -/
def RELogger_Init (st : CState) (logFilePath : Option String) (openOk : Bool)
    (errMsg : String) : CState × List Ev :=
  let st := { st with mutexInitialized := true }
  match logFilePath with
  | none => (st, [])
  | some p =>
    if p.length > 0 then
      if openOk then
        ({ st with logFile := some ⟨"", ""⟩ }, [])
      else
        ({ st with logFile := none },
         [Ev.writeOut ConsoleStream.stderr
            ("Warning: Could not open log file '" ++ p ++ "' (error: " ++ errMsg ++ ")\n")])
    else (st, [])

/-- `RELogger_Shutdown` (relogger.c lines 178-192): flush and close the file
if open, then destroy the mutex if it was initialized. -/
def RELogger_Shutdown (st : CState) : CState × List Ev :=
  let (st1, evs) :=
    match st.logFile with
    | some _ => ({ st with logFile := none }, [Ev.flushFile, Ev.closeFile])
    | none => (st, ([] : List Ev))
  if st1.mutexInitialized then
    ({ st1 with mutexInitialized := false }, evs)
  else (st1, evs)

/-- `RELogger_SetLevel` (relogger.c lines 204-207): a plain assignment,
with no mutex acquisition around it. -/
def RELogger_SetLevel (st : CState) (level : Nat) : CState × List Ev :=
  ({ st with currentLevel := level }, [Ev.writeLevel level])

/-- `RELogger_GetLevel` (relogger.c lines 218-221): a plain read,
with no mutex acquisition around it.  It modifies nothing. -/
def RELogger_GetLevel (st : CState) : Nat × List Ev :=
  (st.currentLevel, [Ev.readLevel])

/-- `RELogger_Log` (relogger.c lines 237-277), `DEBUG` build: filter below
the current level before locking, then under the mutex format the timestamp,
write the colorized line to stderr (level >= Error) or stdout, and if a file
is open write the uncolored line and flush it. -/
def RELogger_Log (st : CState) (level : Nat) (message : String) (file : String)
    (line : Int) (func : String) (now : Time) : CState × List Ev :=
  if level < st.currentLevel then
    (st, [])
  else
    let timeStr := Time.hhmmss now
    let out : ConsoleStream :=
      if LogLevel_Error ≤ level then ConsoleStream.stderr else ConsoleStream.stdout
    let consoleLine :=
      LevelToColor level ++ "[" ++ timeStr ++ "] " ++ LevelToString level ++ " " ++
      file ++ ":" ++ toString line ++ " (" ++ func ++ ") - " ++ message ++
      RESET_COLOR ++ "\n"
    let fileLine :=
      "[" ++ timeStr ++ "] " ++ LevelToString level ++ " " ++
      file ++ ":" ++ toString line ++ " (" ++ func ++ ") - " ++ message ++ "\n"
    match st.logFile with
    | some f =>
        ({ st with logFile := some ((f.write fileLine).flush) },
         [Ev.lock, Ev.writeOut out consoleLine, Ev.writeFile fileLine, Ev.flushFile,
          Ev.unlock])
    | none =>
        (st, [Ev.lock, Ev.writeOut out consoleLine, Ev.unlock])

namespace RELogger

/-- The C++ variant's translation-unit state (relogger.cpp lines 34-36):
the `std::ofstream` (`none` when not `is_open()`) and `currentLevel`.
The `std::mutex` carries no data. -/
structure CppState where
  logFile : Option FileSink
  currentLevel : Nat
deriving DecidableEq, Repr

/-- `LevelToString` (relogger.cpp lines 47-59, anonymous namespace):
identical table to the C variant, with an explicit `default: "UNKNOWN"`. -/
def LevelToString (level : Nat) : String :=
  if level = LogLevel_Trace then "TRACE"
  else if level = LogLevel_Debug then "DEBUG"
  else if level = LogLevel_Info then "INFO"
  else if level = LogLevel_Warn then "WARN"
  else if level = LogLevel_Error then "ERROR"
  else if level = LogLevel_Fatal then "FATAL"
  else "UNKNOWN"

/-- `LevelToColor` (relogger.cpp lines 66-78, anonymous namespace):
identical table to the C variant, with an explicit `default:` reset. -/
def LevelToColor (level : Nat) : String :=
  if level = LogLevel_Trace then "\x1b[37m"
  else if level = LogLevel_Debug then "\x1b[36m"
  else if level = LogLevel_Info then "\x1b[32m"
  else if level = LogLevel_Warn then "\x1b[33m"
  else if level = LogLevel_Error then "\x1b[31m"
  else if level = LogLevel_Fatal then "\x1b[41m"
  else "\x1b[0m"

/-- `RELogger::Init` (relogger.cpp lines 93-105): under the lock, if the path
is non-empty open it truncating (`openOk` is the environment's answer); on
failure print a colorized error to `std::cerr` (`std::endl` appends "\n").
A failed `open` does not close an already-open stream. -/
def Init (st : CppState) (logFilePath : String) (openOk : Bool) :
    CppState × List Ev :=
  if logFilePath.isEmpty then
    (st, [Ev.lock, Ev.unlock])
  else if openOk then
    ({ st with logFile := some ⟨"", ""⟩ }, [Ev.lock, Ev.unlock])
  else
    (st,
     [Ev.lock,
      Ev.writeOut ConsoleStream.stderr
        ("\x1b[31m[LOGGER ERROR] Failed to open log file: " ++ logFilePath ++
         "\x1b[0m\n"),
      Ev.unlock])

/-- `RELogger::Shutdown` (relogger.cpp lines 110-118): under the lock, flush
and close the file if open. -/
def Shutdown (st : CppState) : CppState × List Ev :=
  match st.logFile with
  | some _ =>
      ({ st with logFile := none }, [Ev.lock, Ev.flushFile, Ev.closeFile, Ev.unlock])
  | none => (st, [Ev.lock, Ev.unlock])

/-- `RELogger::SetLevel` (relogger.cpp lines 127-131): assignment under the lock. -/
def SetLevel (st : CppState) (level : Nat) : CppState × List Ev :=
  ({ st with currentLevel := level }, [Ev.lock, Ev.writeLevel level, Ev.unlock])

/-- `RELogger::GetLevel` (relogger.cpp lines 137-141): read under the lock.
It modifies nothing. -/
def GetLevel (st : CppState) : Nat × List Ev :=
  (st.currentLevel, [Ev.lock, Ev.readLevel, Ev.unlock])

/-- `RELogger::Log` (relogger.cpp lines 161-207), `NDEBUG` undefined: filter
below the current level before locking, then under the mutex format the
timestamp, stream the colorized line to `std::cerr` (level >= Error) or
`std::cout`, and if the file is open stream the uncolored line followed by
`std::endl` (which writes "\n" and flushes). -/
def Log (st : CppState) (level : Nat) (message : String) (file : String)
    (line : Int) (func : String) (now : Time) : CppState × List Ev :=
  if level < st.currentLevel then
    (st, [])
  else
    let timeStr := Time.hhmmss now
    let out : ConsoleStream :=
      if LogLevel_Error ≤ level then ConsoleStream.stderr else ConsoleStream.stdout
    let consoleLine :=
      LevelToColor level ++ "[" ++ timeStr ++ "] " ++ LevelToString level ++ " " ++
      file ++ ":" ++ toString line ++ " (" ++ func ++ ") - " ++ message ++
      "\x1b[0m" ++ "\n"
    let fileLine :=
      "[" ++ timeStr ++ "] " ++ LevelToString level ++ " " ++
      file ++ ":" ++ toString line ++ " (" ++ func ++ ") - " ++ message ++ "\n"
    match st.logFile with
    | some f =>
        ({ st with logFile := some ((f.write fileLine).flush) },
         [Ev.lock, Ev.writeOut out consoleLine, Ev.writeFile fileLine, Ev.flushFile,
          Ev.unlock])
    | none =>
        (st, [Ev.lock, Ev.writeOut out consoleLine, Ev.unlock])

end RELogger

/-- The console writes performed by a trace, in order, with their streams. -/
def consoleOut (evs : List Ev) : List (ConsoleStream × String) :=
  evs.filterMap fun e =>
    match e with
    | Ev.writeOut s l => some (s, l)
    | _ => none

/-- The file writes performed by a trace, in order. -/
def fileWrites (evs : List Ev) : List String :=
  evs.filterMap fun e =>
    match e with
    | Ev.writeFile c => some c
    | _ => none

/-- Does an event touch the shared threshold variable? -/
def touchesLevel : Ev → Bool
  | Ev.readLevel => true
  | Ev.writeLevel _ => true
  | _ => false

/-- Every threshold access in the trace happens at positive lock depth
(the depth starts at `d`). -/
def underLockFrom : Nat → List Ev → Bool
  | _, [] => true
  | d, Ev.lock :: rest => underLockFrom (d + 1) rest
  | d, Ev.unlock :: rest => underLockFrom (d - 1) rest
  | d, e :: rest => (!touchesLevel e || decide (0 < d)) && underLockFrom d rest

/-- Every threshold access in the trace happens while the lock is held. -/
def underLock (evs : List Ev) : Bool :=
  underLockFrom 0 evs

/-- The total content a sink has received (on disk plus still buffered);
"" for an absent sink. -/
def fileContent : Option FileSink → String
  | none => ""
  | some f => f.disk ++ f.pending

/-- The refinement relation between the two variants' states: same sink,
same threshold (the C-only `mutexInitialized` flag has no C++ counterpart). -/
def Agree (c : CState) (x : RELogger.CppState) : Prop :=
  c.logFile = x.logFile ∧ c.currentLevel = x.currentLevel

/-! ## Helper lemmas -/

lemma length_pos_of_ne_empty (p : String) (h : p ≠ "") : 0 < p.length := by
  rcases p with ⟨data⟩
  cases data with
  | nil => exact absurd rfl h
  | cons a l => simp [String.length]

lemma isEmpty_false_of_ne_empty (p : String) (h : p ≠ "") : p.isEmpty = false := by
  rw [Bool.eq_false_iff]
  intro hc
  exact h ((String.isEmpty_iff p).mp hc)

lemma append_congr_right (s : String) {a b : String} (h : a = b) : s ++ a = s ++ b := by
  rw [h]

/-! ## C1 — severity filtering -/

/-- C1 (counterexample): the claim quantifies over all pairs `a ≤ b`, but at
`a = b` the filter `level < currentLevel` does NOT drop the call: after
`SetLevel(0)` a `Log` at severity `0` produces console output (here in the
C variant). -/
theorem c1_counterexample :
    (0 : Nat) ≤ 0 ∧
    consoleOut (RELogger_Log (RELogger_SetLevel ⟨none, 3, true⟩ 0).1
      0 "m" "f.c" 1 "fn" ⟨0, 0, 0⟩).2 ≠ [] := by
  constructor
  · decide
  · decide

/-- C1 (amended): for severities `a < b` (strictly below the threshold),
after `SetLevel(b)` a `Log` at `a` returns immediately with no side effect —
the state is unchanged and the event trace is empty, so in particular the
lock is never acquired and neither sink is written — while a `Log` at any
severity `c ≥ b` produces console output; in both variants. -/
theorem c1_filtering :
    ∀ (a b c : Nat) (stc : CState) (stx : RELogger.CppState)
      (msg fl fn : String) (ln : Int) (t : Time),
      a < b → b ≤ c →
      (RELogger_Log (RELogger_SetLevel stc b).1 a msg fl ln fn t =
         ((RELogger_SetLevel stc b).1, []) ∧
       consoleOut (RELogger_Log (RELogger_SetLevel stc b).1 c msg fl ln fn t).2 ≠ []) ∧
      (RELogger.Log (RELogger.SetLevel stx b).1 a msg fl ln fn t =
         ((RELogger.SetLevel stx b).1, []) ∧
       consoleOut (RELogger.Log (RELogger.SetLevel stx b).1 c msg fl ln fn t).2 ≠ []) := by
  intro a b c stc stx msg fl fn ln t hab hbc
  have hc : ¬ c < b := Nat.not_lt.mpr hbc
  refine ⟨⟨?_, ?_⟩, ?_, ?_⟩
  · simp [RELogger_SetLevel, RELogger_Log, hab]
  · simp only [RELogger_SetLevel, RELogger_Log]
    cases stc.logFile <;> simp [hc, consoleOut]
  · simp [RELogger.SetLevel, RELogger.Log, hab]
  · simp only [RELogger.SetLevel, RELogger.Log]
    cases stx.logFile <;> simp [hc, consoleOut]

/-- C1 (witness): the amended theorem applied at `a = 0`, `b = 1`, `c = 2`. -/
theorem c1_filtering_witness :
    (0 : Nat) < 1 ∧ (1 : Nat) ≤ 2 ∧
    ((RELogger_Log (RELogger_SetLevel ⟨none, 0, true⟩ 1).1 0 "m" "f.c" 1 "fn" ⟨0, 0, 0⟩ =
        ((RELogger_SetLevel ⟨none, 0, true⟩ 1).1, []) ∧
      consoleOut (RELogger_Log (RELogger_SetLevel ⟨none, 0, true⟩ 1).1
        2 "m" "f.c" 1 "fn" ⟨0, 0, 0⟩).2 ≠ []) ∧
     (RELogger.Log (RELogger.SetLevel ⟨none, 0⟩ 1).1 0 "m" "f.c" 1 "fn" ⟨0, 0, 0⟩ =
        ((RELogger.SetLevel ⟨none, 0⟩ 1).1, []) ∧
      consoleOut (RELogger.Log (RELogger.SetLevel ⟨none, 0⟩ 1).1
        2 "m" "f.c" 1 "fn" ⟨0, 0, 0⟩).2 ≠ [])) :=
  ⟨by decide, by decide,
   c1_filtering 0 1 2 ⟨none, 0, true⟩ ⟨none, 0⟩ "m" "f.c" "fn" 1 ⟨0, 0, 0⟩
     (by decide) (by decide)⟩

/-! ## C2 — file line format -/

/-- C2: whenever a `Log` call passes the filter while a file sink is open,
the chunk appended to the file is exactly
`"[HH:MM:SS] LEVELNAME sourceFile:sourceLine (functionName) - message\n"`
with no color codes, in both variants; and at the concrete input
level = Error, message = "disk full", sourceFile = "x.c", sourceLine = 42,
functionName = "save", the appended line is, time prefix aside, exactly
`ERROR x.c:42 (save) - disk full`. -/
theorem c2_file_line_format :
    ∀ (stc : CState) (stx : RELogger.CppState) (f0 g0 : FileSink) (level : Nat)
      (msg fl fn : String) (ln : Int) (t : Time),
      stc.logFile = some f0 → stc.currentLevel ≤ level →
      stx.logFile = some g0 → stx.currentLevel ≤ level →
      (fileWrites (RELogger_Log stc level msg fl ln fn t).2 =
        ["[" ++ Time.hhmmss t ++ "] " ++ LevelToString level ++ " " ++ fl ++ ":" ++
         toString ln ++ " (" ++ fn ++ ") - " ++ msg ++ "\n"]) ∧
      (fileWrites (RELogger.Log stx level msg fl ln fn t).2 =
        ["[" ++ Time.hhmmss t ++ "] " ++ RELogger.LevelToString level ++ " " ++ fl ++ ":" ++
         toString ln ++ " (" ++ fn ++ ") - " ++ msg ++ "\n"]) ∧
      (fileWrites (RELogger_Log ⟨some f0, LogLevel_Trace, true⟩ LogLevel_Error
          "disk full" "x.c" 42 "save" t).2 =
        ["[" ++ Time.hhmmss t ++ "] " ++ "ERROR x.c:42 (save) - disk full\n"]) ∧
      (fileWrites (RELogger.Log ⟨some g0, LogLevel_Trace⟩ LogLevel_Error
          "disk full" "x.c" 42 "save" t).2 =
        ["[" ++ Time.hhmmss t ++ "] " ++ "ERROR x.c:42 (save) - disk full\n"]) := by
  intro stc stx f0 g0 level msg fl fn ln t hc1 hc2 hx1 hx2
  have hltc : ¬ level < stc.currentLevel := Nat.not_lt.mpr hc2
  have hltx : ¬ level < stx.currentLevel := Nat.not_lt.mpr hx2
  refine ⟨?_, ?_, ?_, ?_⟩
  · simp [RELogger_Log, hltc, hc1, fileWrites]
  · simp [RELogger.Log, hltx, hx1, fileWrites]
  · simp only [RELogger_Log, LogLevel_Error, LogLevel_Trace, fileWrites]
    norm_num [List.filterMap]
    simp only [String.append_assoc]
    apply append_congr_right
    apply append_congr_right
    decide
  · simp only [RELogger.Log, LogLevel_Error, LogLevel_Trace, fileWrites]
    norm_num [List.filterMap]
    simp only [String.append_assoc]
    apply append_congr_right
    apply append_congr_right
    decide

/-- C2 (witness): the format theorem applied at a concrete state, sink,
severity Info, and time 07:05:03. -/
theorem c2_file_line_format_witness :
    (⟨some ⟨"", ""⟩, 0, true⟩ : CState).logFile = some ⟨"", ""⟩ ∧
    (⟨some ⟨"", ""⟩, 0, true⟩ : CState).currentLevel ≤ 2 ∧
    (⟨some ⟨"", ""⟩, 0⟩ : RELogger.CppState).logFile = some ⟨"", ""⟩ ∧
    (⟨some ⟨"", ""⟩, 0⟩ : RELogger.CppState).currentLevel ≤ 2 ∧
    ((fileWrites (RELogger_Log ⟨some ⟨"", ""⟩, 0, true⟩ 2 "hi" "a.c" 7 "go" ⟨7, 5, 3⟩).2 =
       ["[" ++ Time.hhmmss ⟨7, 5, 3⟩ ++ "] " ++ LevelToString 2 ++ " " ++ "a.c" ++ ":" ++
        toString (7 : Int) ++ " (" ++ "go" ++ ") - " ++ "hi" ++ "\n"]) ∧
     (fileWrites (RELogger.Log ⟨some ⟨"", ""⟩, 0⟩ 2 "hi" "a.c" 7 "go" ⟨7, 5, 3⟩).2 =
       ["[" ++ Time.hhmmss ⟨7, 5, 3⟩ ++ "] " ++ RELogger.LevelToString 2 ++ " " ++ "a.c" ++ ":" ++
        toString (7 : Int) ++ " (" ++ "go" ++ ") - " ++ "hi" ++ "\n"]) ∧
     (fileWrites (RELogger_Log ⟨some ⟨"", ""⟩, LogLevel_Trace, true⟩ LogLevel_Error
         "disk full" "x.c" 42 "save" ⟨7, 5, 3⟩).2 =
       ["[" ++ Time.hhmmss ⟨7, 5, 3⟩ ++ "] " ++ "ERROR x.c:42 (save) - disk full\n"]) ∧
     (fileWrites (RELogger.Log ⟨some ⟨"", ""⟩, LogLevel_Trace⟩ LogLevel_Error
         "disk full" "x.c" 42 "save" ⟨7, 5, 3⟩).2 =
       ["[" ++ Time.hhmmss ⟨7, 5, 3⟩ ++ "] " ++ "ERROR x.c:42 (save) - disk full\n"])) :=
  ⟨rfl, by decide, rfl, by decide,
   c2_file_line_format ⟨some ⟨"", ""⟩, 0, true⟩ ⟨some ⟨"", ""⟩, 0⟩ ⟨"", ""⟩ ⟨"", ""⟩
     2 "hi" "a.c" "go" 7 ⟨7, 5, 3⟩ rfl (by decide) rfl (by decide)⟩

/-! ## C4 — console stream routing -/

/-- C4: every `Log` call that passes the filter writes its single console
line to stderr when the severity is at least Error, and to stdout for every
lower severity, in both variants. -/
theorem c4_stream_routing :
    ∀ (stc : CState) (stx : RELogger.CppState) (level : Nat) (msg fl fn : String)
      (ln : Int) (t : Time),
      stc.currentLevel ≤ level → stx.currentLevel ≤ level →
      (∃ l1, consoleOut (RELogger_Log stc level msg fl ln fn t).2 =
        [(if LogLevel_Error ≤ level then ConsoleStream.stderr else ConsoleStream.stdout,
          l1)]) ∧
      (∃ l2, consoleOut (RELogger.Log stx level msg fl ln fn t).2 =
        [(if LogLevel_Error ≤ level then ConsoleStream.stderr else ConsoleStream.stdout,
          l2)]) := by
  intro stc stx level msg fl fn ln t hc hx
  have hltc : ¬ level < stc.currentLevel := Nat.not_lt.mpr hc
  have hltx : ¬ level < stx.currentLevel := Nat.not_lt.mpr hx
  constructor
  · refine ⟨LevelToColor level ++ "[" ++ Time.hhmmss t ++ "] " ++ LevelToString level ++
      " " ++ fl ++ ":" ++ toString ln ++ " (" ++ fn ++ ") - " ++ msg ++
      RESET_COLOR ++ "\n", ?_⟩
    cases h : stc.logFile <;> simp [RELogger_Log, hltc, h, consoleOut]
  · refine ⟨RELogger.LevelToColor level ++ "[" ++ Time.hhmmss t ++ "] " ++
      RELogger.LevelToString level ++ " " ++ fl ++ ":" ++ toString ln ++ " (" ++ fn ++
      ") - " ++ msg ++ "\x1b[0m" ++ "\n", ?_⟩
    cases h : stx.logFile <;> simp [RELogger.Log, hltx, h, consoleOut]

/-- C4 (witness): the routing theorem applied at severity Error from a
state with threshold Trace and no sink. -/
theorem c4_stream_routing_witness :
    (⟨none, 0, true⟩ : CState).currentLevel ≤ 4 ∧
    (⟨none, 0⟩ : RELogger.CppState).currentLevel ≤ 4 ∧
    ((∃ l1, consoleOut (RELogger_Log ⟨none, 0, true⟩ 4 "m" "f.c" 1 "fn" ⟨0, 0, 0⟩).2 =
       [(if LogLevel_Error ≤ 4 then ConsoleStream.stderr else ConsoleStream.stdout, l1)]) ∧
     (∃ l2, consoleOut (RELogger.Log ⟨none, 0⟩ 4 "m" "f.c" 1 "fn" ⟨0, 0, 0⟩).2 =
       [(if LogLevel_Error ≤ 4 then ConsoleStream.stderr else ConsoleStream.stdout, l2)])) :=
  ⟨by decide, by decide,
   c4_stream_routing ⟨none, 0, true⟩ ⟨none, 0⟩ 4 "m" "f.c" "fn" 1 ⟨0, 0, 0⟩
     (by decide) (by decide)⟩

/-! ## C5 — console line = colored file line; fixed color table -/

/-- C5: for every `Log` call that passes the filter (here with a sink open,
so the file line is observable), the console line is exactly the file line
(newline terminator aside) wrapped in the severity's ANSI color prefix and
the ANSI reset suffix; the color table is Trace="\x1b[37m" (white),
Debug="\x1b[36m" (cyan), Info="\x1b[32m" (green), Warn="\x1b[33m" (yellow),
Error="\x1b[31m" (red foreground), Fatal="\x1b[41m" (red background), and
any out-of-range severity maps to the reset code, in both variants. -/
theorem c5_console_color_wrap :
    ∀ (stc : CState) (stx : RELogger.CppState) (f0 g0 : FileSink) (level : Nat)
      (msg fl fn : String) (ln : Int) (t : Time),
      stc.logFile = some f0 → stc.currentLevel ≤ level →
      stx.logFile = some g0 → stx.currentLevel ≤ level →
      (∃ body s,
        consoleOut (RELogger_Log stc level msg fl ln fn t).2 =
          [(s, LevelToColor level ++ body ++ RESET_COLOR ++ "\n")] ∧
        fileWrites (RELogger_Log stc level msg fl ln fn t).2 = [body ++ "\n"]) ∧
      (∃ body s,
        consoleOut (RELogger.Log stx level msg fl ln fn t).2 =
          [(s, RELogger.LevelToColor level ++ body ++ "\x1b[0m" ++ "\n")] ∧
        fileWrites (RELogger.Log stx level msg fl ln fn t).2 = [body ++ "\n"]) ∧
      (LevelToColor LogLevel_Trace = "\x1b[37m" ∧ LevelToColor LogLevel_Debug = "\x1b[36m" ∧
       LevelToColor LogLevel_Info = "\x1b[32m" ∧ LevelToColor LogLevel_Warn = "\x1b[33m" ∧
       LevelToColor LogLevel_Error = "\x1b[31m" ∧ LevelToColor LogLevel_Fatal = "\x1b[41m") ∧
      (RELogger.LevelToColor LogLevel_Trace = "\x1b[37m" ∧
       RELogger.LevelToColor LogLevel_Debug = "\x1b[36m" ∧
       RELogger.LevelToColor LogLevel_Info = "\x1b[32m" ∧
       RELogger.LevelToColor LogLevel_Warn = "\x1b[33m" ∧
       RELogger.LevelToColor LogLevel_Error = "\x1b[31m" ∧
       RELogger.LevelToColor LogLevel_Fatal = "\x1b[41m") ∧
      (∀ n, LogLevel_Fatal < n →
        LevelToColor n = RESET_COLOR ∧ RELogger.LevelToColor n = RESET_COLOR) := by
  intro stc stx f0 g0 level msg fl fn ln t hc1 hc2 hx1 hx2
  have hltc : ¬ level < stc.currentLevel := Nat.not_lt.mpr hc2
  have hltx : ¬ level < stx.currentLevel := Nat.not_lt.mpr hx2
  refine ⟨?_, ?_, by decide, by decide, ?_⟩
  · refine ⟨"[" ++ Time.hhmmss t ++ "] " ++ LevelToString level ++ " " ++ fl ++ ":" ++
      toString ln ++ " (" ++ fn ++ ") - " ++ msg,
      (if LogLevel_Error ≤ level then ConsoleStream.stderr else ConsoleStream.stdout),
      ?_, ?_⟩
    · simp [RELogger_Log, hltc, hc1, consoleOut, String.append_assoc]
    · simp [RELogger_Log, hltc, hc1, fileWrites]
  · refine ⟨"[" ++ Time.hhmmss t ++ "] " ++ RELogger.LevelToString level ++ " " ++ fl ++
      ":" ++ toString ln ++ " (" ++ fn ++ ") - " ++ msg,
      (if LogLevel_Error ≤ level then ConsoleStream.stderr else ConsoleStream.stdout),
      ?_, ?_⟩
    · simp [RELogger.Log, hltx, hx1, consoleOut, String.append_assoc]
    · simp [RELogger.Log, hltx, hx1, fileWrites]
  · intro n hn
    have hn5 : 5 < n := hn
    have h0 : ¬ n = 0 := by omega
    have h1 : ¬ n = 1 := by omega
    have h2 : ¬ n = 2 := by omega
    have h3 : ¬ n = 3 := by omega
    have h4 : ¬ n = 4 := by omega
    have h5 : ¬ n = 5 := by omega
    constructor
    · simp [LevelToColor, LogLevel_Trace, LogLevel_Debug, LogLevel_Info, LogLevel_Warn,
        LogLevel_Error, LogLevel_Fatal, RESET_COLOR, h0, h1, h2, h3, h4, h5]
    · simp [RELogger.LevelToColor, LogLevel_Trace, LogLevel_Debug, LogLevel_Info,
        LogLevel_Warn, LogLevel_Error, LogLevel_Fatal, RESET_COLOR, h0, h1, h2, h3, h4, h5]

/-- C5 (witness): the wrapping theorem applied at severity Warn from states
with threshold Debug and open sinks. -/
theorem c5_console_color_wrap_witness :
    (⟨some ⟨"d", "p"⟩, 1, true⟩ : CState).logFile = some ⟨"d", "p"⟩ ∧
    (⟨some ⟨"d", "p"⟩, 1, true⟩ : CState).currentLevel ≤ 3 ∧
    (⟨some ⟨"d", "p"⟩, 1⟩ : RELogger.CppState).logFile = some ⟨"d", "p"⟩ ∧
    (⟨some ⟨"d", "p"⟩, 1⟩ : RELogger.CppState).currentLevel ≤ 3 ∧
    ((∃ body s,
        consoleOut (RELogger_Log ⟨some ⟨"d", "p"⟩, 1, true⟩ 3 "m" "f.c" 1 "fn" ⟨0, 0, 0⟩).2 =
          [(s, LevelToColor 3 ++ body ++ RESET_COLOR ++ "\n")] ∧
        fileWrites (RELogger_Log ⟨some ⟨"d", "p"⟩, 1, true⟩ 3 "m" "f.c" 1 "fn" ⟨0, 0, 0⟩).2 =
          [body ++ "\n"]) ∧
     (∃ body s,
        consoleOut (RELogger.Log ⟨some ⟨"d", "p"⟩, 1⟩ 3 "m" "f.c" 1 "fn" ⟨0, 0, 0⟩).2 =
          [(s, RELogger.LevelToColor 3 ++ body ++ "\x1b[0m" ++ "\n")] ∧
        fileWrites (RELogger.Log ⟨some ⟨"d", "p"⟩, 1⟩ 3 "m" "f.c" 1 "fn" ⟨0, 0, 0⟩).2 =
          [body ++ "\n"]) ∧
     (LevelToColor LogLevel_Trace = "\x1b[37m" ∧ LevelToColor LogLevel_Debug = "\x1b[36m" ∧
      LevelToColor LogLevel_Info = "\x1b[32m" ∧ LevelToColor LogLevel_Warn = "\x1b[33m" ∧
      LevelToColor LogLevel_Error = "\x1b[31m" ∧ LevelToColor LogLevel_Fatal = "\x1b[41m") ∧
     (RELogger.LevelToColor LogLevel_Trace = "\x1b[37m" ∧
      RELogger.LevelToColor LogLevel_Debug = "\x1b[36m" ∧
      RELogger.LevelToColor LogLevel_Info = "\x1b[32m" ∧
      RELogger.LevelToColor LogLevel_Warn = "\x1b[33m" ∧
      RELogger.LevelToColor LogLevel_Error = "\x1b[31m" ∧
      RELogger.LevelToColor LogLevel_Fatal = "\x1b[41m") ∧
     (∀ n, LogLevel_Fatal < n →
       LevelToColor n = RESET_COLOR ∧ RELogger.LevelToColor n = RESET_COLOR)) :=
  ⟨rfl, by decide, rfl, by decide,
   c5_console_color_wrap ⟨some ⟨"d", "p"⟩, 1, true⟩ ⟨some ⟨"d", "p"⟩, 1⟩ ⟨"d", "p"⟩
     ⟨"d", "p"⟩ 3 "m" "f.c" "fn" 1 ⟨0, 0, 0⟩ rfl (by decide) rfl (by decide)⟩

/-! ## C8 — flush on every file write -/

/-- C8: whenever a `Log` call passes the filter while a file sink is open,
the sink is flushed immediately after the record is written: the resulting
sink has an empty buffer, and its on-disk content is the previous total
content followed by exactly the written line, in both variants. -/
theorem c8_flush_on_write :
    ∀ (stc : CState) (stx : RELogger.CppState) (f0 g0 : FileSink) (level : Nat)
      (msg fl fn : String) (ln : Int) (t : Time),
      stc.logFile = some f0 → stc.currentLevel ≤ level →
      stx.logFile = some g0 → stx.currentLevel ≤ level →
      (∃ chunk,
        fileWrites (RELogger_Log stc level msg fl ln fn t).2 = [chunk] ∧
        (RELogger_Log stc level msg fl ln fn t).1.logFile =
          some ⟨f0.disk ++ f0.pending ++ chunk, ""⟩) ∧
      (∃ chunk,
        fileWrites (RELogger.Log stx level msg fl ln fn t).2 = [chunk] ∧
        (RELogger.Log stx level msg fl ln fn t).1.logFile =
          some ⟨g0.disk ++ g0.pending ++ chunk, ""⟩) := by
  intro stc stx f0 g0 level msg fl fn ln t hc1 hc2 hx1 hx2
  have hltc : ¬ level < stc.currentLevel := Nat.not_lt.mpr hc2
  have hltx : ¬ level < stx.currentLevel := Nat.not_lt.mpr hx2
  constructor
  · refine ⟨"[" ++ Time.hhmmss t ++ "] " ++ LevelToString level ++ " " ++ fl ++ ":" ++
      toString ln ++ " (" ++ fn ++ ") - " ++ msg ++ "\n", ?_, ?_⟩
    · simp [RELogger_Log, hltc, hc1, fileWrites]
    · simp [RELogger_Log, hltc, hc1, FileSink.write, FileSink.flush, String.append_assoc]
  · refine ⟨"[" ++ Time.hhmmss t ++ "] " ++ RELogger.LevelToString level ++ " " ++ fl ++
      ":" ++ toString ln ++ " (" ++ fn ++ ") - " ++ msg ++ "\n", ?_, ?_⟩
    · simp [RELogger.Log, hltx, hx1, fileWrites]
    · simp [RELogger.Log, hltx, hx1, FileSink.write, FileSink.flush, String.append_assoc]

/-- C8 (witness): the flush theorem applied at severity Fatal with sinks
holding both flushed and still-buffered content. -/
theorem c8_flush_on_write_witness :
    (⟨some ⟨"d", "p"⟩, 2, true⟩ : CState).logFile = some ⟨"d", "p"⟩ ∧
    (⟨some ⟨"d", "p"⟩, 2, true⟩ : CState).currentLevel ≤ 5 ∧
    (⟨some ⟨"d", "p"⟩, 2⟩ : RELogger.CppState).logFile = some ⟨"d", "p"⟩ ∧
    (⟨some ⟨"d", "p"⟩, 2⟩ : RELogger.CppState).currentLevel ≤ 5 ∧
    ((∃ chunk,
        fileWrites (RELogger_Log ⟨some ⟨"d", "p"⟩, 2, true⟩ 5 "m" "f.c" 1 "fn" ⟨0, 0, 0⟩).2 =
          [chunk] ∧
        (RELogger_Log ⟨some ⟨"d", "p"⟩, 2, true⟩ 5 "m" "f.c" 1 "fn" ⟨0, 0, 0⟩).1.logFile =
          some ⟨"d" ++ "p" ++ chunk, ""⟩) ∧
     (∃ chunk,
        fileWrites (RELogger.Log ⟨some ⟨"d", "p"⟩, 2⟩ 5 "m" "f.c" 1 "fn" ⟨0, 0, 0⟩).2 =
          [chunk] ∧
        (RELogger.Log ⟨some ⟨"d", "p"⟩, 2⟩ 5 "m" "f.c" 1 "fn" ⟨0, 0, 0⟩).1.logFile =
          some ⟨"d" ++ "p" ++ chunk, ""⟩)) :=
  ⟨rfl, by decide, rfl, by decide,
   c8_flush_on_write ⟨some ⟨"d", "p"⟩, 2, true⟩ ⟨some ⟨"d", "p"⟩, 2⟩ ⟨"d", "p"⟩ ⟨"d", "p"⟩
     5 "m" "f.c" "fn" 1 ⟨0, 0, 0⟩ rfl (by decide) rfl (by decide)⟩

/-! ## C6 — Shutdown idempotence -/

/-- C6 (counterexample): in the C variant, calling `Shutdown` when no file
sink is open is not a state no-op: from `logFile = NULL`,
`mutexInitialized = 1` it destroys the mutex and clears the flag, so the
state after the call differs from the state before it. -/
theorem c6_counterexample :
    (⟨none, 0, true⟩ : CState).logFile = none ∧
    (RELogger_Shutdown ⟨none, 0, true⟩).1 ≠ ⟨none, 0, true⟩ := by
  constructor
  · decide
  · decide

/-- C6 (amended): `Shutdown` is idempotent in both variants — a second
`Shutdown` directly after a first is a pure no-op (and in the C++ variant
calling it with no sink open already is one); after any `Shutdown` the file
sink is absent; in the C variant a `Shutdown` with no sink open leaves the
sink and the threshold unchanged but additionally clears the
mutex-initialized flag, performing no output. -/
theorem c6_shutdown_idempotent :
    ∀ (stc : CState) (stx : RELogger.CppState),
      (RELogger_Shutdown (RELogger_Shutdown stc).1 = ((RELogger_Shutdown stc).1, []) ∧
       RELogger.Shutdown (RELogger.Shutdown stx).1 =
         ((RELogger.Shutdown stx).1, [Ev.lock, Ev.unlock])) ∧
      ((RELogger_Shutdown stc).1.logFile = none ∧
       (RELogger.Shutdown stx).1.logFile = none) ∧
      (stx.logFile = none → RELogger.Shutdown stx = (stx, [Ev.lock, Ev.unlock])) ∧
      (stc.logFile = none →
        RELogger_Shutdown stc = ({ stc with mutexInitialized := false }, [])) := by
  intro stc stx
  rcases stc with ⟨lf, lvl, mi⟩
  rcases stx with ⟨xlf, xlvl⟩
  cases lf <;> cases mi <;> cases xlf <;>
    simp [RELogger_Shutdown, RELogger.Shutdown]

/-- C6 (witness): the amended theorem applied to a C state with an open sink
and an initialized mutex, and a C++ state with an open sink. -/
theorem c6_shutdown_idempotent_witness :
    (RELogger_Shutdown (RELogger_Shutdown ⟨some ⟨"d", ""⟩, 1, true⟩).1 =
       ((RELogger_Shutdown ⟨some ⟨"d", ""⟩, 1, true⟩).1, []) ∧
     RELogger.Shutdown (RELogger.Shutdown ⟨some ⟨"d", ""⟩, 1⟩).1 =
       ((RELogger.Shutdown ⟨some ⟨"d", ""⟩, 1⟩).1, [Ev.lock, Ev.unlock])) ∧
    ((RELogger_Shutdown ⟨some ⟨"d", ""⟩, 1, true⟩).1.logFile = none ∧
     (RELogger.Shutdown ⟨some ⟨"d", ""⟩, 1⟩).1.logFile = none) ∧
    ((⟨some ⟨"d", ""⟩, 1⟩ : RELogger.CppState).logFile = none →
      RELogger.Shutdown ⟨some ⟨"d", ""⟩, 1⟩ =
        (⟨some ⟨"d", ""⟩, 1⟩, [Ev.lock, Ev.unlock])) ∧
    ((⟨some ⟨"d", ""⟩, 1, true⟩ : CState).logFile = none →
      RELogger_Shutdown ⟨some ⟨"d", ""⟩, 1, true⟩ =
        ({ (⟨some ⟨"d", ""⟩, 1, true⟩ : CState) with mutexInitialized := false }, [])) :=
  c6_shutdown_idempotent ⟨some ⟨"d", ""⟩, 1, true⟩ ⟨some ⟨"d", ""⟩, 1⟩

/-! ## C7 — console-only degradation on failed Init -/

/-- C7: when `Init` is called with a non-empty path whose open fails, both
variants emit a single warning line to stderr, leave the file sink absent,
and report no error; a subsequent `Log` at or above the threshold still
produces its console output. -/
theorem c7_console_only_degradation :
    ∀ (stc : CState) (stx : RELogger.CppState) (p err : String) (level : Nat)
      (msg fl fn : String) (ln : Int) (t : Time),
      p ≠ "" → stc.logFile = none → stx.logFile = none →
      ((∃ w, consoleOut (RELogger_Init stc (some p) false err).2 =
          [(ConsoleStream.stderr, w)]) ∧
       (RELogger_Init stc (some p) false err).1.logFile = none ∧
       ((RELogger_Init stc (some p) false err).1.currentLevel ≤ level →
         ∃ s l, consoleOut (RELogger_Log (RELogger_Init stc (some p) false err).1
           level msg fl ln fn t).2 = [(s, l)])) ∧
      ((∃ w, consoleOut (RELogger.Init stx p false).2 = [(ConsoleStream.stderr, w)]) ∧
       (RELogger.Init stx p false).1.logFile = none ∧
       ((RELogger.Init stx p false).1.currentLevel ≤ level →
         ∃ s l, consoleOut (RELogger.Log (RELogger.Init stx p false).1
           level msg fl ln fn t).2 = [(s, l)])) := by
  intro stc stx p err level msg fl fn ln t hp hc hx
  have hlen : 0 < p.length := length_pos_of_ne_empty p hp
  have hie : p.isEmpty = false := isEmpty_false_of_ne_empty p hp
  refine ⟨⟨⟨"Warning: Could not open log file '" ++ p ++ "' (error: " ++ err ++ ")\n",
      ?_⟩, ?_, ?_⟩,
    ⟨"\x1b[31m[LOGGER ERROR] Failed to open log file: " ++ p ++ "\x1b[0m\n", ?_⟩, ?_, ?_⟩
  · simp [RELogger_Init, hlen, consoleOut]
  · simp [RELogger_Init, hlen]
  · intro hlev
    have hlt : ¬ level < (RELogger_Init stc (some p) false err).1.currentLevel :=
      Nat.not_lt.mpr hlev
    have hnone : (RELogger_Init stc (some p) false err).1.logFile = none := by
      simp [RELogger_Init, hlen]
    refine ⟨(if LogLevel_Error ≤ level then ConsoleStream.stderr else ConsoleStream.stdout),
      LevelToColor level ++ "[" ++ Time.hhmmss t ++ "] " ++ LevelToString level ++ " " ++
        fl ++ ":" ++ toString ln ++ " (" ++ fn ++ ") - " ++ msg ++ RESET_COLOR ++ "\n", ?_⟩
    simp [RELogger_Log, hlt, hnone, consoleOut]
  · simp [RELogger.Init, hie, hx, consoleOut]
  · simp [RELogger.Init, hie, hx]
  · intro hlev
    have hlt : ¬ level < (RELogger.Init stx p false).1.currentLevel :=
      Nat.not_lt.mpr hlev
    have hnone : (RELogger.Init stx p false).1.logFile = none := by
      simp [RELogger.Init, hie, hx]
    refine ⟨(if LogLevel_Error ≤ level then ConsoleStream.stderr else ConsoleStream.stdout),
      RELogger.LevelToColor level ++ "[" ++ Time.hhmmss t ++ "] " ++
        RELogger.LevelToString level ++ " " ++ fl ++ ":" ++ toString ln ++ " (" ++ fn ++
        ") - " ++ msg ++ "\x1b[0m" ++ "\n", ?_⟩
    simp [RELogger.Log, hlt, hnone, consoleOut]

/-- C7 (witness): the degradation theorem applied to fresh states, the path
"/no/such/dir/log.txt", and a subsequent Info-level log call. -/
theorem c7_console_only_degradation_witness :
    ("/no/such/dir/log.txt" : String) ≠ "" ∧
    (⟨none, 0, true⟩ : CState).logFile = none ∧
    (⟨none, 0⟩ : RELogger.CppState).logFile = none ∧
    (((∃ w, consoleOut
          (RELogger_Init ⟨none, 0, true⟩ (some "/no/such/dir/log.txt") false "x").2 =
          [(ConsoleStream.stderr, w)]) ∧
      (RELogger_Init ⟨none, 0, true⟩ (some "/no/such/dir/log.txt") false "x").1.logFile =
        none ∧
      ((RELogger_Init ⟨none, 0, true⟩ (some "/no/such/dir/log.txt") false
          "x").1.currentLevel ≤ 2 →
        ∃ s l, consoleOut (RELogger_Log
          (RELogger_Init ⟨none, 0, true⟩ (some "/no/such/dir/log.txt") false "x").1
          2 "m" "f.c" 1 "fn" ⟨0, 0, 0⟩).2 = [(s, l)])) ∧
     ((∃ w, consoleOut (RELogger.Init ⟨none, 0⟩ "/no/such/dir/log.txt" false).2 =
          [(ConsoleStream.stderr, w)]) ∧
      (RELogger.Init ⟨none, 0⟩ "/no/such/dir/log.txt" false).1.logFile = none ∧
      ((RELogger.Init ⟨none, 0⟩ "/no/such/dir/log.txt" false).1.currentLevel ≤ 2 →
        ∃ s l, consoleOut (RELogger.Log
          (RELogger.Init ⟨none, 0⟩ "/no/such/dir/log.txt" false).1
          2 "m" "f.c" 1 "fn" ⟨0, 0, 0⟩).2 = [(s, l)]))) :=
  ⟨by decide, rfl, rfl,
   c7_console_only_degradation ⟨none, 0, true⟩ ⟨none, 0⟩ "/no/such/dir/log.txt" "x"
     2 "m" "f.c" "fn" 1 ⟨0, 0, 0⟩ (by decide) rfl rfl⟩

/-! ## C9 — SetLevel/GetLevel locking -/

/-- C9 (counterexample): in the C variant, `RELogger_SetLevel` and
`RELogger_GetLevel` touch the shared threshold without ever acquiring the
mutex: their event traces contain a threshold access but no lock event. -/
theorem c9_counterexample :
    underLock (RELogger_SetLevel ⟨none, 0, true⟩ 3).2 = false ∧
    (RELogger_SetLevel ⟨none, 0, true⟩ 3).2.contains Ev.lock = false ∧
    underLock (RELogger_GetLevel ⟨none, 0, true⟩).2 = false ∧
    (RELogger_GetLevel ⟨none, 0, true⟩).2.contains Ev.lock = false := by
  constructor
  · decide
  constructor
  · decide
  constructor
  · decide
  · decide

/-- C9 (amended): in the C++ variant `SetLevel` and `GetLevel` perform their
threshold access while holding the lock (trace `[lock, access, unlock]`);
in the C variant both access the threshold with no lock acquisition at all.
In both variants `SetLevel` stores the given level and `GetLevel` returns
the current threshold. -/
theorem c9_level_lock_discipline :
    ∀ (stc : CState) (stx : RELogger.CppState) (lvl : Nat),
      (RELogger.SetLevel stx lvl).2 = [Ev.lock, Ev.writeLevel lvl, Ev.unlock] ∧
      (RELogger.GetLevel stx).2 = [Ev.lock, Ev.readLevel, Ev.unlock] ∧
      underLock (RELogger.SetLevel stx lvl).2 = true ∧
      underLock (RELogger.GetLevel stx).2 = true ∧
      (RELogger_SetLevel stc lvl).2 = [Ev.writeLevel lvl] ∧
      (RELogger_GetLevel stc).2 = [Ev.readLevel] ∧
      underLock (RELogger_SetLevel stc lvl).2 = false ∧
      underLock (RELogger_GetLevel stc).2 = false ∧
      (RELogger.SetLevel stx lvl).1.currentLevel = lvl ∧
      (RELogger.GetLevel stx).1 = stx.currentLevel ∧
      (RELogger_SetLevel stc lvl).1.currentLevel = lvl ∧
      (RELogger_GetLevel stc).1 = stc.currentLevel :=
  fun _ _ _ =>
    ⟨rfl, rfl, rfl, rfl, rfl, rfl, rfl, rfl, rfl, rfl, rfl, rfl⟩

/-! ## C10 — frame conditions -/

/-- C10: `Log` modifies neither the threshold, nor the presence of the file
sink, nor (in C) the mutex flag — it only appends to the sinks; `GetLevel`
returns the threshold and modifies nothing; the threshold is changed only by
`SetLevel` (which changes nothing else), and the sink handle only by `Init`
and `Shutdown` (both of which leave the threshold unchanged). -/
theorem c10_frame :
    ∀ (stc : CState) (stx : RELogger.CppState) (level lvl : Nat)
      (msg fl fn p err : String) (ln : Int) (t : Time) (openOk : Bool),
      ((RELogger_Log stc level msg fl ln fn t).1.currentLevel = stc.currentLevel ∧
       (RELogger_Log stc level msg fl ln fn t).1.mutexInitialized = stc.mutexInitialized ∧
       ((RELogger_Log stc level msg fl ln fn t).1.logFile).isSome = (stc.logFile).isSome ∧
       ∃ app, fileContent (RELogger_Log stc level msg fl ln fn t).1.logFile =
         fileContent stc.logFile ++ app) ∧
      ((RELogger.Log stx level msg fl ln fn t).1.currentLevel = stx.currentLevel ∧
       ((RELogger.Log stx level msg fl ln fn t).1.logFile).isSome = (stx.logFile).isSome ∧
       ∃ app, fileContent (RELogger.Log stx level msg fl ln fn t).1.logFile =
         fileContent stx.logFile ++ app) ∧
      (RELogger_GetLevel stc = (stc.currentLevel, [Ev.readLevel]) ∧
       RELogger.GetLevel stx = (stx.currentLevel, [Ev.lock, Ev.readLevel, Ev.unlock])) ∧
      ((RELogger_SetLevel stc lvl).1 = { stc with currentLevel := lvl } ∧
       (RELogger.SetLevel stx lvl).1 = { stx with currentLevel := lvl }) ∧
      ((RELogger_Init stc (some p) openOk err).1.currentLevel = stc.currentLevel ∧
       (RELogger_Init stc none openOk err).1.currentLevel = stc.currentLevel ∧
       (RELogger_Shutdown stc).1.currentLevel = stc.currentLevel ∧
       (RELogger.Init stx p openOk).1.currentLevel = stx.currentLevel ∧
       (RELogger.Shutdown stx).1.currentLevel = stx.currentLevel) := by
  intro stc stx level lvl msg fl fn p err ln t openOk
  refine ⟨⟨?_, ?_, ?_, ?_⟩, ⟨?_, ?_, ?_⟩, ⟨rfl, rfl⟩, ⟨rfl, rfl⟩, ?_, ?_, ?_, ?_, ?_⟩
  · by_cases hlt : level < stc.currentLevel <;>
      cases h : stc.logFile <;> simp [RELogger_Log, hlt, h]
  · by_cases hlt : level < stc.currentLevel <;>
      cases h : stc.logFile <;> simp [RELogger_Log, hlt, h]
  · by_cases hlt : level < stc.currentLevel <;>
      cases h : stc.logFile <;> simp [RELogger_Log, hlt, h]
  · by_cases hlt : level < stc.currentLevel
    · exact ⟨"", by simp [RELogger_Log, hlt, String.append_empty]⟩
    · cases h : stc.logFile with
      | none => exact ⟨"", by simp [RELogger_Log, hlt, h, fileContent, String.append_empty]⟩
      | some f =>
        refine ⟨"[" ++ Time.hhmmss t ++ "] " ++ LevelToString level ++ " " ++ fl ++ ":" ++
          toString ln ++ " (" ++ fn ++ ") - " ++ msg ++ "\n", ?_⟩
        simp [RELogger_Log, hlt, h, fileContent, FileSink.write, FileSink.flush,
          String.append_assoc, String.append_empty]
  · by_cases hlt : level < stx.currentLevel <;>
      cases h : stx.logFile <;> simp [RELogger.Log, hlt, h]
  · by_cases hlt : level < stx.currentLevel <;>
      cases h : stx.logFile <;> simp [RELogger.Log, hlt, h]
  · by_cases hlt : level < stx.currentLevel
    · exact ⟨"", by simp [RELogger.Log, hlt, String.append_empty]⟩
    · cases h : stx.logFile with
      | none => exact ⟨"", by simp [RELogger.Log, hlt, h, fileContent, String.append_empty]⟩
      | some f =>
        refine ⟨"[" ++ Time.hhmmss t ++ "] " ++ RELogger.LevelToString level ++ " " ++
          fl ++ ":" ++ toString ln ++ " (" ++ fn ++ ") - " ++ msg ++ "\n", ?_⟩
        simp [RELogger.Log, hlt, h, fileContent, FileSink.write, FileSink.flush,
          String.append_assoc, String.append_empty]
  · simp only [RELogger_Init]
    split <;> (try split) <;> rfl
  · rfl
  · rcases stc with ⟨clf, clvl, cmi⟩
    cases clf <;> cases cmi <;> simp [RELogger_Shutdown]
  · simp only [RELogger.Init]
    split <;> (try split) <;> rfl
  · rcases stx with ⟨xlf, xlvl⟩
    cases xlf <;> simp [RELogger.Shutdown]

/-! ## C3 — equivalence of the two variants -/

lemma levelToString_eq (n : Nat) : RELogger.LevelToString n = LevelToString n := rfl

lemma levelToColor_eq (n : Nat) : RELogger.LevelToColor n = LevelToColor n := rfl

/-- C3 (counterexample): applied to the same arguments from corresponding
fresh states, the two variants' `Init` on a failing open produce different
console output — the C variant warns
`Warning: Could not open log file '...' (error: ...)` on stderr, the C++
variant `[LOGGER ERROR] Failed to open log file: ...` wrapped in red. -/
theorem c3_counterexample :
    consoleOut (RELogger_Init ⟨none, 0, false⟩ (some "log.txt") false
      "No such file or directory").2 ≠
    consoleOut (RELogger.Init ⟨none, 0⟩ "log.txt" false).2 := by
  decide

/-- C3 (amended): started from corresponding states (same sink, same
threshold), the operations `SetLevel`, `GetLevel`, `Shutdown` and `Log`
produce the same console output, the same file writes, the same results and
corresponding states in both variants; `Init` from a sink-absent state with
the same arguments also agrees when the open succeeds, while on a failing
open both variants leave the sink absent and emit one stderr warning each —
but with different warning texts (see the counterexample). -/
theorem c3_variant_equivalence :
    ∀ (c : CState) (x : RELogger.CppState) (level lvl : Nat)
      (msg fl fn p err : String) (ln : Int) (t : Time) (openOk : Bool),
      Agree c x →
      (Agree (RELogger_SetLevel c lvl).1 (RELogger.SetLevel x lvl).1 ∧
       consoleOut (RELogger_SetLevel c lvl).2 = consoleOut (RELogger.SetLevel x lvl).2 ∧
       fileWrites (RELogger_SetLevel c lvl).2 = fileWrites (RELogger.SetLevel x lvl).2) ∧
      ((RELogger_GetLevel c).1 = (RELogger.GetLevel x).1 ∧
       consoleOut (RELogger_GetLevel c).2 = consoleOut (RELogger.GetLevel x).2) ∧
      (Agree (RELogger_Shutdown c).1 (RELogger.Shutdown x).1 ∧
       consoleOut (RELogger_Shutdown c).2 = consoleOut (RELogger.Shutdown x).2 ∧
       fileWrites (RELogger_Shutdown c).2 = fileWrites (RELogger.Shutdown x).2) ∧
      (Agree (RELogger_Log c level msg fl ln fn t).1
         (RELogger.Log x level msg fl ln fn t).1 ∧
       consoleOut (RELogger_Log c level msg fl ln fn t).2 =
         consoleOut (RELogger.Log x level msg fl ln fn t).2 ∧
       fileWrites (RELogger_Log c level msg fl ln fn t).2 =
         fileWrites (RELogger.Log x level msg fl ln fn t).2) ∧
      (c.logFile = none → p ≠ "" →
        (openOk = true →
          Agree (RELogger_Init c (some p) openOk err).1 (RELogger.Init x p openOk).1 ∧
          consoleOut (RELogger_Init c (some p) openOk err).2 =
            consoleOut (RELogger.Init x p openOk).2) ∧
        (openOk = false →
          Agree (RELogger_Init c (some p) openOk err).1 (RELogger.Init x p openOk).1 ∧
          ∃ w1 w2,
            consoleOut (RELogger_Init c (some p) openOk err).2 =
              [(ConsoleStream.stderr, w1)] ∧
            consoleOut (RELogger.Init x p openOk).2 = [(ConsoleStream.stderr, w2)])) := by
  intro c x level lvl msg fl fn p err ln t openOk hA
  obtain ⟨hf, hl⟩ := hA
  refine ⟨⟨⟨?_, ?_⟩, ?_, ?_⟩, ⟨?_, ?_⟩, ?_, ?_, ?_⟩
  · simpa [RELogger_SetLevel, RELogger.SetLevel] using hf
  · simp [RELogger_SetLevel, RELogger.SetLevel, hl]
  · simp [RELogger_SetLevel, RELogger.SetLevel, consoleOut]
  · simp [RELogger_SetLevel, RELogger.SetLevel, fileWrites]
  · simpa [RELogger_GetLevel, RELogger.GetLevel] using hl
  · simp [RELogger_GetLevel, RELogger.GetLevel, consoleOut]
  · rcases c with ⟨clf, clvl, cmi⟩
    rcases x with ⟨xlf, xlvl⟩
    simp only at hf hl
    subst hf hl
    cases clf <;> cases cmi <;>
      simp [RELogger_Shutdown, RELogger.Shutdown, Agree, consoleOut, fileWrites]
  · rcases c with ⟨clf, clvl, cmi⟩
    rcases x with ⟨xlf, xlvl⟩
    simp only at hf hl
    subst hf hl
    by_cases hlt : level < clvl <;> cases clf <;>
      simp [RELogger_Log, RELogger.Log, Agree, consoleOut, fileWrites, hlt,
        levelToString_eq, levelToColor_eq, RESET_COLOR]
  · intro hcnone hp
    have hxnone : x.logFile = none := by rw [← hf]; exact hcnone
    have hlen : 0 < p.length := length_pos_of_ne_empty p hp
    have hie : p.isEmpty = false := isEmpty_false_of_ne_empty p hp
    constructor
    · intro hok
      subst hok
      constructor
      · exact ⟨by simp [RELogger_Init, RELogger.Init, hlen, hie], by
          simpa [RELogger_Init, RELogger.Init, hlen, hie] using hl⟩
      · simp [RELogger_Init, RELogger.Init, hlen, hie, consoleOut]
    · intro hok
      subst hok
      refine ⟨⟨?_, ?_⟩,
        "Warning: Could not open log file '" ++ p ++ "' (error: " ++ err ++ ")\n",
        "\x1b[31m[LOGGER ERROR] Failed to open log file: " ++ p ++ "\x1b[0m\n",
        ?_, ?_⟩
      · simp [RELogger_Init, RELogger.Init, hlen, hie, hxnone]
      · simpa [RELogger_Init, RELogger.Init, hlen, hie] using hl
      · simp [RELogger_Init, hlen, consoleOut]
      · simp [RELogger.Init, hie, consoleOut]

/-- C3 (witness): the amended equivalence applied to corresponding states
with threshold Warn and no sink, a `Log` at Info, a `SetLevel` to Debug, and
an `Init` of "log.txt" whose open fails. -/
theorem c3_variant_equivalence_witness :
    Agree ⟨none, 3, true⟩ ⟨none, 3⟩ ∧
    ((Agree (RELogger_SetLevel ⟨none, 3, true⟩ 1).1 (RELogger.SetLevel ⟨none, 3⟩ 1).1 ∧
      consoleOut (RELogger_SetLevel ⟨none, 3, true⟩ 1).2 =
        consoleOut (RELogger.SetLevel ⟨none, 3⟩ 1).2 ∧
      fileWrites (RELogger_SetLevel ⟨none, 3, true⟩ 1).2 =
        fileWrites (RELogger.SetLevel ⟨none, 3⟩ 1).2) ∧
     ((RELogger_GetLevel ⟨none, 3, true⟩).1 = (RELogger.GetLevel ⟨none, 3⟩).1 ∧
      consoleOut (RELogger_GetLevel ⟨none, 3, true⟩).2 =
        consoleOut (RELogger.GetLevel ⟨none, 3⟩).2) ∧
     (Agree (RELogger_Shutdown ⟨none, 3, true⟩).1 (RELogger.Shutdown ⟨none, 3⟩).1 ∧
      consoleOut (RELogger_Shutdown ⟨none, 3, true⟩).2 =
        consoleOut (RELogger.Shutdown ⟨none, 3⟩).2 ∧
      fileWrites (RELogger_Shutdown ⟨none, 3, true⟩).2 =
        fileWrites (RELogger.Shutdown ⟨none, 3⟩).2) ∧
     (Agree (RELogger_Log ⟨none, 3, true⟩ 2 "m" "f.c" 1 "fn" ⟨0, 0, 0⟩).1
        (RELogger.Log ⟨none, 3⟩ 2 "m" "f.c" 1 "fn" ⟨0, 0, 0⟩).1 ∧
      consoleOut (RELogger_Log ⟨none, 3, true⟩ 2 "m" "f.c" 1 "fn" ⟨0, 0, 0⟩).2 =
        consoleOut (RELogger.Log ⟨none, 3⟩ 2 "m" "f.c" 1 "fn" ⟨0, 0, 0⟩).2 ∧
      fileWrites (RELogger_Log ⟨none, 3, true⟩ 2 "m" "f.c" 1 "fn" ⟨0, 0, 0⟩).2 =
        fileWrites (RELogger.Log ⟨none, 3⟩ 2 "m" "f.c" 1 "fn" ⟨0, 0, 0⟩).2) ∧
     ((⟨none, 3, true⟩ : CState).logFile = none → ("log.txt" : String) ≠ "" →
       ((false : Bool) = true →
         Agree (RELogger_Init ⟨none, 3, true⟩ (some "log.txt") false "E").1
           (RELogger.Init ⟨none, 3⟩ "log.txt" false).1 ∧
         consoleOut (RELogger_Init ⟨none, 3, true⟩ (some "log.txt") false "E").2 =
           consoleOut (RELogger.Init ⟨none, 3⟩ "log.txt" false).2) ∧
       ((false : Bool) = false →
         Agree (RELogger_Init ⟨none, 3, true⟩ (some "log.txt") false "E").1
           (RELogger.Init ⟨none, 3⟩ "log.txt" false).1 ∧
         ∃ w1 w2,
           consoleOut (RELogger_Init ⟨none, 3, true⟩ (some "log.txt") false "E").2 =
             [(ConsoleStream.stderr, w1)] ∧
           consoleOut (RELogger.Init ⟨none, 3⟩ "log.txt" false).2 =
             [(ConsoleStream.stderr, w2)]))) :=
  ⟨⟨rfl, rfl⟩,
   c3_variant_equivalence ⟨none, 3, true⟩ ⟨none, 3⟩ 2 1 "m" "f.c" "fn" "log.txt" "E"
     1 ⟨0, 0, 0⟩ false ⟨rfl, rfl⟩⟩
